import Mathlib

/-!
Verification of the response reconciliation logic of the image-analyzer
application (src/app/page.tsx, `handleAnalyze`, lines 224-290).

The reconciliation code receives a decoded JSON value (`normalized =
result.response`) and tries three candidate shapes in order:

* Path 1 (line 231): `if (normalized.result?.data)` — the payload is used
  verbatim (`finalResult = normalized as AnalysisResult`).
* Path 2 (lines 235-264): `else if (normalized.result)` and at least one of
  `scene_description`, `objects_detected`, `color_analysis`,
  `mood_and_context` is truthy on `normalized.result` — a canonical object
  is rebuilt field by field with JavaScript `||` defaulting.
* Path 3 (lines 266-275): `else if (res.summary && res.data)` — a wrapper
  is built around `res` verbatim.
* Otherwise (lines 281-286): a fixed error message is set and the debug
  view is enabled.

JSON values are embedded as the inductive `JSValue`; JavaScript property
access, optional chaining, truthiness and `||` are embedded by `jsGet`,
`jsGetD`, `truthy` and `jsOr`.  JavaScript numbers are embedded as `Int`:
the reconciliation logic only ever inspects a number through its
truthiness (zero versus non-zero), which `Int` captures for every value
appearing in the payloads considered here.
-/

/-- A JSON/JavaScript value as seen by the reconciliation logic.
`undef` is JavaScript `undefined`, the result of reading an absent
property; it is not a JSON literal but arises during evaluation. -/
inductive JSValue : Type where
  | undef : JSValue
  | null : JSValue
  | boolean : Bool → JSValue
  | num : Int → JSValue
  | str : String → JSValue
  | arr : List JSValue → JSValue
  | obj : List (String × JSValue) → JSValue

/-- Property lookup in an object's field list (JavaScript objects have
unique keys, so first match is the match). -/
def lookupField : List (String × JSValue) → String → JSValue
  | [], _ => JSValue.undef
  | (k', v) :: rest, k => if k' = k then v else lookupField rest k

/-- JavaScript property access on a value known (or guarded) to be
non-nullish, and also optional-chained access `a?.b`: on an object it
looks the key up, on any other value it yields `undefined` (none of the
property names used by the reconciliation logic — `result`, `data`,
`summary`, etc. — exist on primitives or arrays, and `a?.b` yields
`undefined` when `a` is nullish). -/
def jsGetD : JSValue → String → JSValue
  | JSValue.obj fs, k => lookupField fs k
  | _, _ => JSValue.undef

/-- The error a JavaScript property access can raise. -/
inductive JSError : Type where
  | typeError : String → JSError

/-- Unguarded JavaScript property access: reading a property of `null` or
`undefined` throws a `TypeError`; otherwise it behaves like `jsGetD`.
This models line 231's `normalized.result`, the one access whose receiver
is not known to be non-nullish. -/
def jsGet : JSValue → String → Except JSError JSValue
  | JSValue.null, k => Except.error (JSError.typeError k)
  | JSValue.undef, k => Except.error (JSError.typeError k)
  | v, k => Except.ok (jsGetD v k)

/-- JavaScript truthiness. -/
def truthy : JSValue → Bool
  | JSValue.undef => false
  | JSValue.null => false
  | JSValue.boolean b => b
  | JSValue.num n => n != 0
  | JSValue.str s => s != ""
  | JSValue.arr _ => true
  | JSValue.obj _ => true

/-- JavaScript `a || b`: the first operand if truthy, otherwise the
second. -/
def jsOr (a b : JSValue) : JSValue :=
  if truthy a then a else b

/-- JavaScript `Array.isArray`. -/
def isArray : JSValue → Bool
  | JSValue.arr _ => true
  | _ => false

/-- A value that is neither `null` nor `undefined`, i.e. one whose
properties can be read without throwing. -/
def nonNullish : JSValue → Bool
  | JSValue.null => false
  | JSValue.undef => false
  | _ => true

/-- The metadata object synthesized when the payload carries none
(lines 259-262 and 270-273): the fixed agent label and the current
instant.  The clock is injected as the string `now` in place of
`new Date().toISOString()`. -/
def fallbackMetadata (now : String) : JSValue :=
  JSValue.obj
    [("agent_name", JSValue.str "Image Analyzer Agent"),
     ("timestamp", JSValue.str now)]

/-- Path 2's marker predicate (line 239): at least one of
`scene_description`, `objects_detected`, `color_analysis`,
`mood_and_context` is truthy directly on `res`. -/
def path2pred (res : JSValue) : Bool :=
  truthy (jsGetD res "scene_description") ||
  truthy (jsGetD res "objects_detected") ||
  truthy (jsGetD res "color_analysis") ||
  truthy (jsGetD res "mood_and_context")

/-- The object Path 2 builds (lines 240-263), field for field:
`||` defaulting for the string fields, `Array.isArray` guards for
`objects_detected` and `suggested_use_cases`, `||` defaulting (no array
check) for `dominant_colors`, and the metadata fallback. -/
def path2Result (now : String) (normalized res : JSValue) : JSValue :=
  JSValue.obj
    [("status", jsOr (jsGetD normalized "status") (JSValue.str "success")),
     ("result", JSValue.obj
       [("summary",
          jsOr (jsOr (jsGetD res "summary") (jsGetD normalized "message"))
            (JSValue.str "Image analysis completed")),
        ("data", JSValue.obj
          [("scene_description",
             jsOr (jsGetD res "scene_description") (JSValue.str "")),
           ("objects_detected",
             if isArray (jsGetD res "objects_detected") then
               jsGetD res "objects_detected"
             else JSValue.arr []),
           ("text_extracted",
             jsOr (jsGetD res "text_extracted") (JSValue.str "")),
           ("color_analysis", JSValue.obj
             [("dominant_colors",
                jsOr (jsGetD (jsGetD res "color_analysis") "dominant_colors")
                  (JSValue.arr []))]),
           ("mood_and_context", JSValue.obj
             [("emotional_tone",
                jsOr (jsGetD (jsGetD res "mood_and_context") "emotional_tone")
                  (JSValue.str "")),
              ("suggested_use_cases",
                if isArray
                    (jsGetD (jsGetD res "mood_and_context")
                      "suggested_use_cases") then
                  jsGetD (jsGetD res "mood_and_context") "suggested_use_cases"
                else JSValue.arr [])])])]),
     ("metadata", jsOr (jsGetD normalized "metadata") (fallbackMetadata now))]

/-- The object Path 3 builds (lines 267-274): `res` verbatim as the
`result` value, with the status and metadata defaults. -/
def path3Result (now : String) (normalized res : JSValue) : JSValue :=
  JSValue.obj
    [("status", jsOr (jsGetD normalized "status") (JSValue.str "success")),
     ("result", res),
     ("metadata", jsOr (jsGetD normalized "metadata") (fallbackMetadata now))]

/-- Which branch of the if/else-if chain fires. -/
inductive PathChoice : Type where
  | p1 : PathChoice
  | p2 : PathChoice
  | p3 : PathChoice
  | noMatch : PathChoice

/-- The branch selection of lines 231-276, given `r = normalized.result`:
Path 1 when `normalized.result?.data` is truthy; else, when
`normalized.result` is truthy, Path 2 on the marker predicate, else
Path 3 on `res.summary && res.data`; otherwise no match. -/
def selectPathBody (r : JSValue) : PathChoice :=
  if truthy (jsGetD r "data") then PathChoice.p1
  else if truthy r then
    if path2pred r then PathChoice.p2
    else if truthy (jsGetD r "summary") && truthy (jsGetD r "data") then
      PathChoice.p3
    else PathChoice.noMatch
  else PathChoice.noMatch

/-- Branch selection from the payload itself; the initial
`normalized.result` access can throw. -/
def selectPath (normalized : JSValue) : Except JSError PathChoice :=
  match jsGet normalized "result" with
  | Except.error e => Except.error e
  | Except.ok r => Except.ok (selectPathBody r)

/-- The value of `finalResult` (lines 228-276) once `normalized.result`
has been read: Path 1 returns the payload verbatim (the `as
AnalysisResult` cast), Paths 2 and 3 build their objects, and otherwise
`finalResult` stays `null`. -/
def reconcileBody (now : String) (normalized r : JSValue) : Option JSValue :=
  match selectPathBody r with
  | PathChoice.p1 => some normalized
  | PathChoice.p2 => some (path2Result now normalized r)
  | PathChoice.p3 => some (path3Result now normalized r)
  | PathChoice.noMatch => none

/-- The mapping logic of lines 224-276 applied to the decoded response
`normalized`: `Except.error` models the `TypeError` thrown by
`normalized.result` on a nullish payload, `Except.ok (some out)` a mapped
`finalResult`, and `Except.ok none` the `finalResult = null` fall-through. -/
def reconcile (now : String) (normalized : JSValue) :
    Except JSError (Option JSValue) :=
  match jsGet normalized "result" with
  | Except.error e => Except.error e
  | Except.ok r => Except.ok (reconcileBody now normalized r)

/-- What the caller observes (lines 278-286): either the mapped analysis
(`setAnalysisResult finalResult`), or the failure branch, which sets a
fixed error message, enables the debug view, and retains the raw payload
(kept via `setRawResponse` / `console.error`). -/
inductive ReconcileOutcome : Type where
  | success : JSValue → ReconcileOutcome
  | failure : String → Bool → JSValue → ReconcileOutcome

/-- The fixed message of line 284. -/
def noMatchMessage : String :=
  "Could not parse agent response. Enable debug view to see raw response."

/-- Lines 278-286 on top of the mapping logic. -/
def reconcileOutcome (now : String) (normalized : JSValue) :
    Except JSError ReconcileOutcome :=
  match reconcile now normalized with
  | Except.error e => Except.error e
  | Except.ok (some v) => Except.ok (ReconcileOutcome.success v)
  | Except.ok none =>
      Except.ok (ReconcileOutcome.failure noMatchMessage true normalized)

/-- The payload `{result:{data:{}}}`: `result.data` is present as an
(empty) object, so Path 1 fires and the payload is returned verbatim. -/
def payloadDataEmpty : JSValue :=
  JSValue.obj [("result", JSValue.obj [("data", JSValue.obj [])])]

/-- The flattened payload of spec Scenario B:
`{result:{scene_description:"D", objects_detected:[]}}`. -/
def scenBResult : JSValue :=
  JSValue.obj
    [("scene_description", JSValue.str "D"),
     ("objects_detected", JSValue.arr [])]

def scenB : JSValue :=
  JSValue.obj [("result", scenBResult)]

/-- The double-nested payload of spec Scenario C:
`{result:{summary:"S2", data:{scene_description:"D2"}}}`. -/
def scenC : JSValue :=
  JSValue.obj
    [("result", JSValue.obj
      [("summary", JSValue.str "S2"),
       ("data", JSValue.obj [("scene_description", JSValue.str "D2")])])]

/-- The mismatching payload of spec Scenario D: `{foo:"bar"}`. -/
def payloadFoo : JSValue :=
  JSValue.obj [("foo", JSValue.str "bar")]

/-- A second mismatching payload with a different top-level key set. -/
def payloadQux : JSValue :=
  JSValue.obj [("qux", JSValue.str "z")]

/-- Once the initial `normalized.result` access has produced `r`, the
mapping logic cannot throw. -/
theorem reconcile_of_jsGet {v r : JSValue} (now : String)
    (h : jsGet v "result" = Except.ok r) :
    reconcile now v = Except.ok (reconcileBody now v r) := by
  unfold reconcile
  rw [h]

/-- When the branch selection picks Path 2, the result is the object
Path 2 builds. -/
theorem reconcile_p2 {v r : JSValue} (now : String)
    (h1 : jsGet v "result" = Except.ok r)
    (h2 : selectPathBody r = PathChoice.p2) :
    reconcile now v = Except.ok (some (path2Result now v r)) := by
  rw [reconcile_of_jsGet now h1]
  unfold reconcileBody
  rw [h2]

/-- When the branch selection picks Path 1, the payload is returned
verbatim. -/
theorem reconcile_p1 {v r : JSValue} (now : String)
    (h1 : jsGet v "result" = Except.ok r)
    (h2 : truthy (jsGetD r "data") = true) :
    reconcile now v = Except.ok (some v) := by
  rw [reconcile_of_jsGet now h1]
  unfold reconcileBody selectPathBody
  rw [h2]
  simp

/-- Summary field of the Path 2 object: the `||` fallback chain of
line 243. -/
theorem path2Result_summary (now : String) (v r : JSValue) :
    jsGetD (jsGetD (path2Result now v r) "result") "summary" =
      jsOr (jsOr (jsGetD r "summary") (jsGetD v "message"))
        (JSValue.str "Image analysis completed") := rfl

/-- Objects-detected field of the Path 2 object (line 246). -/
theorem path2Result_objects (now : String) (v r : JSValue) :
    jsGetD (jsGetD (jsGetD (path2Result now v r) "result") "data")
        "objects_detected" =
      (if isArray (jsGetD r "objects_detected") then
        jsGetD r "objects_detected"
      else JSValue.arr []) := rfl

/-- Suggested-use-cases field of the Path 2 object (lines 253-255). -/
theorem path2Result_suggested (now : String) (v r : JSValue) :
    jsGetD (jsGetD (jsGetD (jsGetD (path2Result now v r) "result") "data")
        "mood_and_context") "suggested_use_cases" =
      (if isArray (jsGetD (jsGetD r "mood_and_context")
          "suggested_use_cases") then
        jsGetD (jsGetD r "mood_and_context") "suggested_use_cases"
      else JSValue.arr []) := rfl

/-- Metadata field of the Path 2 object (lines 259-263). -/
theorem path2Result_metadata (now : String) (v r : JSValue) :
    jsGetD (path2Result now v r) "metadata" =
      jsOr (jsGetD v "metadata") (fallbackMetadata now) := rfl

/-- C1 counterexample: on the well-formed JSON input `null`, the mapping
logic does not return a result at all — the very first access
`normalized.result` (line 231) throws a `TypeError`, contradicting the
claim that the mapping logic never fails for well-formed JSON inputs such
as `null`. -/
theorem c1_null_throws :
    reconcile "2026-01-01T00:00:00Z" JSValue.null =
      Except.error (JSError.typeError "result") := rfl

/-- C1 (amended): for every JSON value other than `null` (and for every
non-nullish JavaScript value), the mapping logic terminates and returns a
result — either a mapped analysis or the no-match fall-through — without
throwing; on `null` or `undefined` it throws a `TypeError`, which only
the surrounding generic `catch` absorbs. -/
theorem c1_reconcile_total (now : String) (v : JSValue)
    (h : nonNullish v = true) :
    ∃ p : Option JSValue, reconcile now v = Except.ok p := by
  cases v with
  | undef => simp [nonNullish] at h
  | null => simp [nonNullish] at h
  | boolean b => exact ⟨_, rfl⟩
  | num n => exact ⟨_, rfl⟩
  | str s => exact ⟨_, rfl⟩
  | arr xs => exact ⟨_, rfl⟩
  | obj fs => exact ⟨_, rfl⟩

/-- C1 witness: the hypotheses of `c1_reconcile_total` hold at the
concrete input `3` and the theorem applies there. -/
theorem c1_reconcile_total_witness :
    nonNullish (JSValue.num 3) = true ∧
      ∃ p : Option JSValue,
        reconcile "2026-01-01T00:00:00Z" (JSValue.num 3) = Except.ok p :=
  ⟨rfl, c1_reconcile_total "2026-01-01T00:00:00Z" (JSValue.num 3) rfl⟩

/-- C9: candidate selection tests truthiness, not presence.
`{result:{data:null}}` and `{result:{data:0, summary:"S"}}` select no
candidate and the mapping falls through (`finalResult` stays `null`),
`{result:{scene_description:""}}` likewise; by contrast the truthy (empty
object) `data` of `{result:{data:{}}}` selects Path 1. -/
theorem c9_truthiness_not_presence (now : String) :
    reconcile now
        (JSValue.obj [("result", JSValue.obj [("data", JSValue.null)])]) =
      Except.ok none ∧
    selectPath
        (JSValue.obj [("result", JSValue.obj [("data", JSValue.null)])]) =
      Except.ok PathChoice.noMatch ∧
    reconcile now
        (JSValue.obj [("result", JSValue.obj
          [("data", JSValue.num 0), ("summary", JSValue.str "S")])]) =
      Except.ok none ∧
    reconcile now
        (JSValue.obj [("result", JSValue.obj
          [("scene_description", JSValue.str "")])]) =
      Except.ok none ∧
    selectPath payloadDataEmpty = Except.ok PathChoice.p1 :=
  ⟨rfl, rfl, rfl, rfl, rfl⟩

/-- C10: `text_extracted` is not a marker for the flattened-result
candidate: a payload whose `result` object contains only
`text_extracted` — whatever its value — selects no candidate, and the
caller observes the fixed-message failure with the debug view enabled and
the raw payload retained, never a mapped analysis. -/
theorem c10_textExtracted_not_marker (now : String) (t : JSValue) :
    reconcile now
        (JSValue.obj [("result", JSValue.obj [("text_extracted", t)])]) =
      Except.ok none ∧
    reconcileOutcome now
        (JSValue.obj [("result", JSValue.obj [("text_extracted", t)])]) =
      Except.ok (ReconcileOutcome.failure noMatchMessage true
        (JSValue.obj [("result", JSValue.obj [("text_extracted", t)])])) :=
  ⟨rfl, rfl⟩

/-- A flattened payload whose `color_analysis.dominant_colors` is a
truthy non-array:
`{result:{scene_description:"D", color_analysis:{dominant_colors:"red"}}}`. -/
def payloadColorBad : JSValue :=
  JSValue.obj
    [("result", JSValue.obj
      [("scene_description", JSValue.str "D"),
       ("color_analysis", JSValue.obj
         [("dominant_colors", JSValue.str "red")])])]

/-- C2 counterexample: not every successful reconciliation has the three
array fields present as arrays.  `{result:{data:{}}}` succeeds via Path 1
with the payload verbatim, so `objects_detected` is absent (`undefined`);
and on Path 2 a truthy non-array `dominant_colors` (here the string
"red") is passed through by the `||` default of line 249, so
`dominant_colors` is not an array either. -/
theorem c2_arrays_counterexample :
    reconcile "2026-01-01T00:00:00Z" payloadDataEmpty =
      Except.ok (some payloadDataEmpty) ∧
    jsGetD (jsGetD (jsGetD payloadDataEmpty "result") "data")
        "objects_detected" = JSValue.undef ∧
    isArray JSValue.undef = false ∧
    reconcile "2026-01-01T00:00:00Z" payloadColorBad =
      Except.ok (some (JSValue.obj
        [("status", JSValue.str "success"),
         ("result", JSValue.obj
           [("summary", JSValue.str "Image analysis completed"),
            ("data", JSValue.obj
              [("scene_description", JSValue.str "D"),
               ("objects_detected", JSValue.arr []),
               ("text_extracted", JSValue.str ""),
               ("color_analysis", JSValue.obj
                 [("dominant_colors", JSValue.str "red")]),
               ("mood_and_context", JSValue.obj
                 [("emotional_tone", JSValue.str ""),
                  ("suggested_use_cases", JSValue.arr [])])])]),
         ("metadata", JSValue.obj
           [("agent_name", JSValue.str "Image Analyzer Agent"),
            ("timestamp", JSValue.str "2026-01-01T00:00:00Z")])])) ∧
    isArray (JSValue.str "red") = false :=
  ⟨rfl, rfl, rfl, rfl, rfl⟩

/-- C2 (amended): successful reconciliations do not in general guarantee
the array fields — Path 1 returns the payload verbatim, and Path 2
passes a truthy non-array `dominant_colors` through — but whenever the
flattened-result candidate (Path 2) is selected, `objects_detected` and
`suggested_use_cases` of the output are arrays, possibly empty, thanks to
the `Array.isArray` guards of lines 246 and 253. -/
theorem c2_arrays_on_path2 (now : String) (v r : JSValue)
    (h1 : jsGet v "result" = Except.ok r)
    (h2 : selectPathBody r = PathChoice.p2) :
    ∃ out : JSValue, reconcile now v = Except.ok (some out) ∧
      isArray (jsGetD (jsGetD (jsGetD out "result") "data")
        "objects_detected") = true ∧
      isArray (jsGetD (jsGetD (jsGetD (jsGetD out "result") "data")
        "mood_and_context") "suggested_use_cases") = true := by
  refine ⟨path2Result now v r, reconcile_p2 now h1 h2, ?_, ?_⟩
  · rw [path2Result_objects]
    split
    · assumption
    · rfl
  · rw [path2Result_suggested]
    split
    · assumption
    · rfl

/-- C2 witness: the hypotheses of `c2_arrays_on_path2` hold at the
Scenario B payload and the theorem applies there. -/
theorem c2_arrays_on_path2_witness :
    jsGet scenB "result" = Except.ok scenBResult ∧
    selectPathBody scenBResult = PathChoice.p2 ∧
    ∃ out : JSValue,
      reconcile "2026-01-01T00:00:00Z" scenB = Except.ok (some out) ∧
      isArray (jsGetD (jsGetD (jsGetD out "result") "data")
        "objects_detected") = true ∧
      isArray (jsGetD (jsGetD (jsGetD (jsGetD out "result") "data")
        "mood_and_context") "suggested_use_cases") = true :=
  ⟨rfl, rfl, c2_arrays_on_path2 "2026-01-01T00:00:00Z" scenB scenBResult rfl rfl⟩

/-- C3 counterexample: when the canonical-shape candidate is selected the
fields are NOT coerced per-field.  On `{result:{data:{}}}` the claim
predicts an output whose string fields are the empty string and whose
array fields are the empty array; the code (line 232,
`finalResult = normalized as AnalysisResult`) returns the payload
verbatim, so `scene_description` is absent (`undefined`, not the empty
string) and `status` is absent too. -/
theorem c3_no_coercion_counterexample :
    reconcile "2026-01-01T00:00:00Z" payloadDataEmpty =
      Except.ok (some payloadDataEmpty) ∧
    jsGetD (jsGetD (jsGetD payloadDataEmpty "result") "data")
        "scene_description" = JSValue.undef ∧
    jsGetD payloadDataEmpty "status" = JSValue.undef :=
  ⟨rfl, rfl, rfl⟩

/-- C3 (amended): whenever the canonical-shape candidate is selected
(`result.data` truthy, in particular any object), the payload is returned
verbatim — a type cast with no per-field coercion — so missing subfields
of `result.data` stay absent rather than being replaced by type
defaults. -/
theorem c3_path1_verbatim (now : String) (v r : JSValue)
    (h1 : jsGet v "result" = Except.ok r)
    (h2 : truthy (jsGetD r "data") = true) :
    reconcile now v = Except.ok (some v) :=
  reconcile_p1 now h1 h2

/-- C3 witness: the hypotheses of `c3_path1_verbatim` hold at
`{result:{data:{}}}` and the theorem applies there. -/
theorem c3_path1_verbatim_witness :
    jsGet payloadDataEmpty "result" =
      Except.ok (JSValue.obj [("data", JSValue.obj [])]) ∧
    truthy (jsGetD (JSValue.obj [("data", JSValue.obj [])]) "data") = true ∧
    reconcile "2026-01-01T00:00:00Z" payloadDataEmpty =
      Except.ok (some payloadDataEmpty) :=
  ⟨rfl, rfl,
    c3_path1_verbatim "2026-01-01T00:00:00Z" payloadDataEmpty
      (JSValue.obj [("data", JSValue.obj [])]) rfl rfl⟩

/-- A payload satisfying candidate 1's predicate (`result.data` present
as an object) and candidate 2's predicate (the `scene_description`
marker directly on `result`) at the same time. -/
def payloadBothShapes : JSValue :=
  JSValue.obj
    [("result", JSValue.obj
      [("data", JSValue.obj []),
       ("scene_description", JSValue.str "m")])]

/-- C5: candidate matching is first-match-wins in the fixed order.  For
every payload whose `result.data` is present as an object (candidate 1's
predicate, spec wording "present as an object") while a marker field also
sits directly on `result` (candidate 2's predicate), Path 1 is selected
and the payload is returned by candidate 1's mapper (verbatim), not by
candidate 2's. -/
theorem c5_priority_p1_over_p2 (now : String) (v r : JSValue)
    (fs : List (String × JSValue))
    (h1 : jsGet v "result" = Except.ok r)
    (h2 : jsGetD r "data" = JSValue.obj fs)
    (h3 : path2pred r = true) :
    selectPath v = Except.ok PathChoice.p1 ∧
      reconcile now v = Except.ok (some v) := by
  have ht : truthy (jsGetD r "data") = true := by rw [h2]; rfl
  constructor
  · unfold selectPath
    rw [h1]
    show Except.ok (selectPathBody r) = Except.ok PathChoice.p1
    unfold selectPathBody
    rw [ht]
    rfl
  · exact reconcile_p1 now h1 ht

/-- C5 witness: the hypotheses of `c5_priority_p1_over_p2` hold at a
payload carrying both `result.data` and a marker field, and the theorem
applies there. -/
theorem c5_priority_witness :
    jsGet payloadBothShapes "result" =
      Except.ok (JSValue.obj
        [("data", JSValue.obj []),
         ("scene_description", JSValue.str "m")]) ∧
    jsGetD (JSValue.obj
        [("data", JSValue.obj []),
         ("scene_description", JSValue.str "m")]) "data" =
      JSValue.obj [] ∧
    path2pred (JSValue.obj
        [("data", JSValue.obj []),
         ("scene_description", JSValue.str "m")]) = true ∧
    (selectPath payloadBothShapes = Except.ok PathChoice.p1 ∧
      reconcile "2026-01-01T00:00:00Z" payloadBothShapes =
        Except.ok (some payloadBothShapes)) :=
  ⟨rfl, rfl, rfl,
    c5_priority_p1_over_p2 "2026-01-01T00:00:00Z" payloadBothShapes
      (JSValue.obj
        [("data", JSValue.obj []),
         ("scene_description", JSValue.str "m")]) [] rfl rfl rfl⟩

/-- C8 counterexample: not every successful reconciliation carries a
`metadata` field.  `{result:{data:{}}}` succeeds via Path 1 with the
payload verbatim, and that payload has no `metadata` at all — nothing is
synthesized on this path. -/
theorem c8_metadata_counterexample :
    reconcile "2026-01-01T00:00:00Z" payloadDataEmpty =
      Except.ok (some payloadDataEmpty) ∧
    jsGetD payloadDataEmpty "metadata" = JSValue.undef :=
  ⟨rfl, rfl⟩

/-- C8 (amended): when the flattened-result candidate (Path 2) is
selected and the payload's `metadata` is not truthy, the output's
`metadata` is synthesized as the fixed fallback agent name together with
the injected clock's value (lines 259-263); on Path 1 the payload is
returned verbatim and `metadata` may be absent. -/
theorem c8_metadata_path2 (now : String) (v r : JSValue)
    (h1 : jsGet v "result" = Except.ok r)
    (h2 : selectPathBody r = PathChoice.p2)
    (h3 : truthy (jsGetD v "metadata") = false) :
    ∃ out : JSValue, reconcile now v = Except.ok (some out) ∧
      jsGetD out "metadata" = fallbackMetadata now ∧
      jsGetD (fallbackMetadata now) "agent_name" =
        JSValue.str "Image Analyzer Agent" ∧
      jsGetD (fallbackMetadata now) "timestamp" = JSValue.str now := by
  refine ⟨path2Result now v r, reconcile_p2 now h1 h2, ?_, rfl, rfl⟩
  rw [path2Result_metadata]
  simp [jsOr, h3]

/-- C8 witness: the hypotheses of `c8_metadata_path2` hold at the
Scenario B payload (which carries no `metadata`), and the theorem applies
there. -/
theorem c8_metadata_path2_witness :
    jsGet scenB "result" = Except.ok scenBResult ∧
    selectPathBody scenBResult = PathChoice.p2 ∧
    truthy (jsGetD scenB "metadata") = false ∧
    ∃ out : JSValue,
      reconcile "2026-01-01T00:00:00Z" scenB = Except.ok (some out) ∧
      jsGetD out "metadata" = fallbackMetadata "2026-01-01T00:00:00Z" ∧
      jsGetD (fallbackMetadata "2026-01-01T00:00:00Z") "agent_name" =
        JSValue.str "Image Analyzer Agent" ∧
      jsGetD (fallbackMetadata "2026-01-01T00:00:00Z") "timestamp" =
        JSValue.str "2026-01-01T00:00:00Z" :=
  ⟨rfl, rfl, rfl,
    c8_metadata_path2 "2026-01-01T00:00:00Z" scenB scenBResult rfl rfl rfl⟩

/-- Branch selection once the initial `normalized.result` access has
produced `r`. -/
theorem selectPath_of_jsGet {v r : JSValue}
    (h : jsGet v "result" = Except.ok r) :
    selectPath v = Except.ok (selectPathBody r) := by
  unfold selectPath
  rw [h]

/-- Branch selection also propagates the thrown `TypeError`. -/
theorem selectPath_of_jsGet_error {v : JSValue} {e : JSError}
    (h : jsGet v "result" = Except.error e) :
    selectPath v = Except.error e := by
  unfold selectPath
  rw [h]

/-- C4 counterexample: the no-match failure does NOT name the attempted
shapes nor list the observed top-level keys.  The failure value produced
for `{foo:"bar"}` and for `{qux:"z"}` — payloads with different
top-level key sets — carries one and the same fixed message, which is the
literal of line 284 and mentions neither a shape name nor any key; the
error consists only of that message, the enabled debug view, and the
retained raw payload. -/
theorem c4_fixed_error_counterexample :
    reconcileOutcome "2026-01-01T00:00:00Z" payloadFoo =
      Except.ok (ReconcileOutcome.failure noMatchMessage true payloadFoo) ∧
    reconcileOutcome "2026-01-01T00:00:00Z" payloadQux =
      Except.ok (ReconcileOutcome.failure noMatchMessage true payloadQux) ∧
    noMatchMessage =
      "Could not parse agent response. Enable debug view to see raw response." :=
  ⟨rfl, rfl, rfl⟩

/-- C4 (amended): for every payload on which no candidate matches,
reconciliation fails — never returning an analysis — with the fixed
error message of line 284, the debug view enabled, and the raw payload
retained; the failure does not name the attempted shapes or the observed
top-level keys. -/
theorem c4_noMatch_outcome (now : String) (v r : JSValue)
    (h1 : jsGet v "result" = Except.ok r)
    (h2 : selectPathBody r = PathChoice.noMatch) :
    reconcileOutcome now v =
      Except.ok (ReconcileOutcome.failure noMatchMessage true v) := by
  unfold reconcileOutcome
  rw [reconcile_of_jsGet now h1]
  unfold reconcileBody
  rw [h2]

/-- C4 witness: the hypotheses of `c4_noMatch_outcome` hold at
`{foo:"bar"}` and the theorem applies there. -/
theorem c4_noMatch_outcome_witness :
    jsGet payloadFoo "result" = Except.ok JSValue.undef ∧
    selectPathBody JSValue.undef = PathChoice.noMatch ∧
    reconcileOutcome "2026-01-01T00:00:00Z" payloadFoo =
      Except.ok (ReconcileOutcome.failure noMatchMessage true payloadFoo) :=
  ⟨rfl, rfl,
    c4_noMatch_outcome "2026-01-01T00:00:00Z" payloadFoo JSValue.undef rfl rfl⟩

/-- A flattened payload whose `summary` is present but empty:
`{result:{scene_description:"D", summary:""}}`. -/
def payloadEmptySummary : JSValue :=
  JSValue.obj
    [("result", JSValue.obj
      [("scene_description", JSValue.str "D"),
       ("summary", JSValue.str "")])]

/-- C6 counterexample: the output summary is not always taken from
`result.summary` when that field is present.  On
`{result:{scene_description:"D", summary:""}}` the claim predicts
`summary=""` (taken from the present `result.summary`), but line 243's
`||` chain skips every falsy value, so the code produces
`summary="Image analysis completed"`. -/
theorem c6_summary_counterexample :
    jsGetD (jsGetD payloadEmptySummary "result") "summary" =
      JSValue.str "" ∧
    reconcile "2026-01-01T00:00:00Z" payloadEmptySummary =
      Except.ok (some (JSValue.obj
        [("status", JSValue.str "success"),
         ("result", JSValue.obj
           [("summary", JSValue.str "Image analysis completed"),
            ("data", JSValue.obj
              [("scene_description", JSValue.str "D"),
               ("objects_detected", JSValue.arr []),
               ("text_extracted", JSValue.str ""),
               ("color_analysis", JSValue.obj
                 [("dominant_colors", JSValue.arr [])]),
               ("mood_and_context", JSValue.obj
                 [("emotional_tone", JSValue.str ""),
                  ("suggested_use_cases", JSValue.arr [])])])]),
         ("metadata", JSValue.obj
           [("agent_name", JSValue.str "Image Analyzer Agent"),
            ("timestamp", JSValue.str "2026-01-01T00:00:00Z")])])) :=
  ⟨rfl, rfl⟩

/-- C6 (amended): when the flattened-result candidate is selected, the
output summary is `result.summary` when that value is truthy; otherwise
the top-level `message` when truthy; otherwise the fixed literal
"Image analysis completed" (a present-but-falsy value, such as the empty
string, is skipped like an absent one).  In particular Scenario B,
`{result:{scene_description:"D", objects_detected:[]}}`, yields
`summary="Image analysis completed"`, `scene_description="D"`, and
synthesized metadata. -/
theorem c6_summary_chain :
    (∀ (now : String) (v r : JSValue),
      jsGet v "result" = Except.ok r →
      selectPathBody r = PathChoice.p2 →
      truthy (jsGetD r "summary") = true →
      ∃ out : JSValue, reconcile now v = Except.ok (some out) ∧
        jsGetD (jsGetD out "result") "summary" = jsGetD r "summary") ∧
    (∀ (now : String) (v r : JSValue),
      jsGet v "result" = Except.ok r →
      selectPathBody r = PathChoice.p2 →
      truthy (jsGetD r "summary") = false →
      truthy (jsGetD v "message") = true →
      ∃ out : JSValue, reconcile now v = Except.ok (some out) ∧
        jsGetD (jsGetD out "result") "summary" = jsGetD v "message") ∧
    (∀ (now : String) (v r : JSValue),
      jsGet v "result" = Except.ok r →
      selectPathBody r = PathChoice.p2 →
      truthy (jsGetD r "summary") = false →
      truthy (jsGetD v "message") = false →
      ∃ out : JSValue, reconcile now v = Except.ok (some out) ∧
        jsGetD (jsGetD out "result") "summary" =
          JSValue.str "Image analysis completed") ∧
    (∀ now : String, reconcile now scenB =
      Except.ok (some (JSValue.obj
        [("status", JSValue.str "success"),
         ("result", JSValue.obj
           [("summary", JSValue.str "Image analysis completed"),
            ("data", JSValue.obj
              [("scene_description", JSValue.str "D"),
               ("objects_detected", JSValue.arr []),
               ("text_extracted", JSValue.str ""),
               ("color_analysis", JSValue.obj
                 [("dominant_colors", JSValue.arr [])]),
               ("mood_and_context", JSValue.obj
                 [("emotional_tone", JSValue.str ""),
                  ("suggested_use_cases", JSValue.arr [])])])]),
         ("metadata", fallbackMetadata now)]))) := by
  refine ⟨?_, ?_, ?_, fun now => rfl⟩
  · intro now v r h1 h2 hs
    refine ⟨path2Result now v r, reconcile_p2 now h1 h2, ?_⟩
    rw [path2Result_summary]
    simp [jsOr, hs]
  · intro now v r h1 h2 hs hm
    refine ⟨path2Result now v r, reconcile_p2 now h1 h2, ?_⟩
    rw [path2Result_summary]
    simp [jsOr, hs, hm]
  · intro now v r h1 h2 hs hm
    refine ⟨path2Result now v r, reconcile_p2 now h1 h2, ?_⟩
    rw [path2Result_summary]
    simp [jsOr, hs, hm]

/-- C6 witness: the hypotheses of `c6_summary_chain`'s third branch hold
at the Scenario B payload (summary and message both absent, hence falsy)
and the theorem applies there. -/
theorem c6_summary_chain_witness :
    jsGet scenB "result" = Except.ok scenBResult ∧
    selectPathBody scenBResult = PathChoice.p2 ∧
    truthy (jsGetD scenBResult "summary") = false ∧
    truthy (jsGetD scenB "message") = false ∧
    ∃ out : JSValue,
      reconcile "2026-01-01T00:00:00Z" scenB = Except.ok (some out) ∧
      jsGetD (jsGetD out "result") "summary" =
        JSValue.str "Image analysis completed" :=
  ⟨rfl, rfl, rfl, rfl,
    c6_summary_chain.2.2.1 "2026-01-01T00:00:00Z" scenB scenBResult
      rfl rfl rfl rfl⟩

/-- The payload `{result:{summary:"S2", data:0}}`: `summary` and `data`
are both present on `result`, `data` is falsy, and no marker field is
present. -/
def payloadSummaryDataZero : JSValue :=
  JSValue.obj
    [("result", JSValue.obj
      [("summary", JSValue.str "S2"),
       ("data", JSValue.num 0)])]

/-- C7 counterexample: the double-nested candidate is not selected
whenever neither candidate 1 nor 2 matched and `result.summary` and
`result.data` are both present.  On `{result:{summary:"S2", data:0}}`
both fields are present, candidate 1 does not match (`data` is falsy) and
candidate 2 does not match (no marker), so the claim predicts the
double-nested candidate and a successful reconciliation — but the code
selects nothing and fails with the fixed no-match error. -/
theorem c7_counterexample :
    jsGetD (jsGetD payloadSummaryDataZero "result") "summary" =
      JSValue.str "S2" ∧
    jsGetD (jsGetD payloadSummaryDataZero "result") "data" =
      JSValue.num 0 ∧
    selectPath payloadSummaryDataZero = Except.ok PathChoice.noMatch ∧
    reconcileOutcome "2026-01-01T00:00:00Z" payloadSummaryDataZero =
      Except.ok (ReconcileOutcome.failure noMatchMessage true
        payloadSummaryDataZero) :=
  ⟨rfl, rfl, rfl, rfl⟩

/-- C7 (amended): the double-nested branch (Path 3) is unreachable — its
guard needs `result.data` truthy, which the Path 1 guard would already
have caught — so branch selection only ever yields Path 1, Path 2, or no
match.  The Scenario C payload `{result:{summary:"S2",
data:{scene_description:"D2"}}}` is handled by candidate 1, which returns
it verbatim, so the reconciled output still has `summary="S2"` and
`scene_description="D2"`. -/
theorem c7_p3_unreachable :
    (∀ (v : JSValue) (c : PathChoice), selectPath v = Except.ok c →
      c = PathChoice.p1 ∨ c = PathChoice.p2 ∨ c = PathChoice.noMatch) ∧
    (∀ now : String, reconcile now scenC = Except.ok (some scenC)) ∧
    jsGetD (jsGetD scenC "result") "summary" = JSValue.str "S2" ∧
    jsGetD (jsGetD (jsGetD scenC "result") "data") "scene_description" =
      JSValue.str "D2" := by
  refine ⟨?_, fun now => rfl, rfl, rfl⟩
  intro v c h
  cases hj : jsGet v "result" with
  | error e =>
      rw [selectPath_of_jsGet_error hj] at h
      exact Except.noConfusion h
  | ok r =>
      rw [selectPath_of_jsGet hj] at h
      injection h with h'
      subst h'
      cases hd : truthy (jsGetD r "data") with
      | true => simp [selectPathBody, hd]
      | false =>
          cases ht : truthy r with
          | false => simp [selectPathBody, hd, ht]
          | true =>
              cases hp : path2pred r with
              | true => simp [selectPathBody, hd, ht, hp]
              | false => simp [selectPathBody, hd, ht, hp]

/-- C7 witness: the hypothesis of `c7_p3_unreachable`'s first part is
discharged at the concrete payload `{}` (whose selection is no-match),
and its second part at a concrete clock value. -/
theorem c7_p3_unreachable_witness :
    selectPath (JSValue.obj []) = Except.ok PathChoice.noMatch ∧
    (PathChoice.noMatch = PathChoice.p1 ∨
      PathChoice.noMatch = PathChoice.p2 ∨
      PathChoice.noMatch = PathChoice.noMatch) ∧
    reconcile "2026-01-01T00:00:00Z" scenC = Except.ok (some scenC) :=
  ⟨rfl, c7_p3_unreachable.1 (JSValue.obj []) PathChoice.noMatch rfl,
    c7_p3_unreachable.2.1 "2026-01-01T00:00:00Z"⟩
